import Mathlib

/-!
Verification of the contact-form relay backend (src/backend/main.py and
src/backend/telegram_bot.py).

The backend is modelled shallowly:

* A raw request body is a record of six optional strings (`RawForm`); the
  pydantic field validator `validate_fields` is a pure function on strings; the
  whole-model validation `validate_form` runs it over the six fields in
  declaration order and fails with the first offending field.
* The dictionary produced by `model_dump()` is an association list
  (`FormDict`); Python `dict.get` truthiness on string values is `truthyGet`.
* `format_message` and the row/table content of `create_excel_file` are pure
  functions of the submission dictionary and the current timestamp, translated
  line by line from telegram_bot.py.
* The outcomes of the external calls (aiogram `Bot` construction,
  `bot.send_message`, `bot.send_document`) and of the binary spreadsheet
  serialization are modelled by a `ChannelEnv` of booleans; `send_form_data`
  returns the dictionary of result booleans (or raises, as `Except.error`, when
  the `Bot` constructor itself fails on a malformed token, which in the source
  happens before the try/finally block is entered) together with the list of
  observable `Event`s it performs, in order.
* The `/submit-questions` endpoint `submit_questions` composes validation,
  the configured-check on the two environment variables, and the relay call;
  its `HttpResponse.success` constructor is the 200 body with
  `status = "success"`, and `HttpResponse.badRequest` is the 400 error path
  (the source surfaces every request-time failure, validation included, as a
  400-class client error with a detail string identifying the cause).
-/

/-- A `model_dump()`-style dictionary: association list from keys to string
values, looked up with `List.lookup` like Python `dict.get`. -/
abbrev FormDict := List (String × String)

/-- Python truthiness of `form_data.get(key)` for string values: the key is
present and its value is a non-empty string. -/
def truthyGet (d : FormDict) (k : String) : Bool :=
  match d.lookup k with
  | some v => !(v == "")
  | none => false

/-- `f'question{i}'` in telegram_bot.py. -/
def questionKey (i : Nat) : String := "question" ++ toString i

/-- `f'answer{i}'` in telegram_bot.py. -/
def answerKey (i : Nat) : String := "answer" ++ toString i

/-- The guard `if form_data.get(question_key) and form_data.get(answer_key)`
shared by `format_message` and `create_excel_file`. -/
def pairPresent (d : FormDict) (i : Nat) : Bool :=
  truthyGet d (questionKey i) && truthyGet d (answerKey i)

/-- The question/answer/separator block appended for pair `i` inside the loop
of `format_message`. -/
def pairBlock (d : FormDict) (i : Nat) : String :=
  "❓ <b>Вопрос " ++ toString i ++ ":</b>\n" ++ ((d.lookup (questionKey i)).getD "") ++
    "\n\n" ++
  "✅ <b>Ответ " ++ toString i ++ ":</b>\n" ++ ((d.lookup (answerKey i)).getD "") ++
    "\n\n" ++
  "─────────────────\n\n"

/-- `format_message` from telegram_bot.py: header with the localized send
timestamp, then one block per pair that passes the truthiness guard. The
current time is passed in as the already-formatted string `now`. -/
def format_message (now : String) (d : FormDict) : String :=
  [1, 2, 3].foldl
    (fun m i => if pairPresent d i then m ++ pairBlock d i else m)
    ("📝 <b>Новая форма с вопросами</b>\n" ++ ("🕐 Отправлено: " ++ now ++ "\n\n"))

/-- One row of the spreadsheet built by `create_excel_file`: the dict appended
to `data` for pair `i`. -/
structure ExcelRow where
  num : Nat
  question : String
  answer : String
  date : String
deriving DecidableEq, Repr

/-- The `data` list built by the loop in `create_excel_file`: one row per pair
that passes the truthiness guard, in index order, each carrying the per-row
timestamp. -/
def excel_rows (now : String) (d : FormDict) : List ExcelRow :=
  [1, 2, 3].foldl
    (fun acc i =>
      if pairPresent d i then
        acc ++ [⟨i, (d.lookup (questionKey i)).getD "", (d.lookup (answerKey i)).getD "",
                 now⟩]
      else acc)
    []

/-- The column headers of the DataFrame, in declaration order:
index, question text, answer text, submission timestamp. -/
def excelHeader : List String :=
  ["Номер вопроса", "Вопрос", "Ответ", "Дата отправки"]

/-- The tabular content of the spreadsheet `create_excel_file` serializes:
the header row followed by one row of cell texts per entry of `data`
(binary xlsx encoding abstracted away; numbers rendered with `str`). -/
def create_excel_file (now : String) (d : FormDict) : List (List String) :=
  excelHeader :: (excel_rows now d).map
    (fun r => [toString r.num, r.question, r.answer, r.date])

/-- The column-width computation of `create_excel_file`: the running
`max_length` over `len(str(cell.value))` of the column's cells, then
`adjusted_width = min(max_length + 2, 50)`. -/
def adjusted_width (col : List String) : Nat :=
  min ((col.map (fun s => s.length)).foldl max 0 + 2) 50

/-- Column `j` of a cell table, as the list of its cell texts. -/
def tableColumn (t : List (List String)) (j : Nat) : List String :=
  t.map (fun row => row.getD j "")

/-- The six fields of `QuestionForm`, in pydantic declaration order. -/
inductive FieldId where
  | question1 | answer1 | question2 | answer2 | question3 | answer3
deriving DecidableEq, Repr

/-- The JSON body of `POST /submit-questions` before validation: each of the
six expected keys may be absent. -/
structure RawForm where
  question1 : Option String
  answer1 : Option String
  question2 : Option String
  answer2 : Option String
  question3 : Option String
  answer3 : Option String
deriving DecidableEq, Repr

def RawForm.get : RawForm → FieldId → Option String
  | r, FieldId.question1 => r.question1
  | r, FieldId.answer1 => r.answer1
  | r, FieldId.question2 => r.question2
  | r, FieldId.answer2 => r.answer2
  | r, FieldId.question3 => r.question3
  | r, FieldId.answer3 => r.answer3

/-- A validated `QuestionForm`: six plain strings. -/
structure Submission where
  question1 : String
  answer1 : String
  question2 : String
  answer2 : String
  question3 : String
  answer3 : String
deriving DecidableEq, Repr

def Submission.get : Submission → FieldId → String
  | s, FieldId.question1 => s.question1
  | s, FieldId.answer1 => s.answer1
  | s, FieldId.question2 => s.question2
  | s, FieldId.answer2 => s.answer2
  | s, FieldId.question3 => s.question3
  | s, FieldId.answer3 => s.answer3

/-- `form_data.model_dump()`: the dict of the six fields in declaration
order. -/
def Submission.toDict (s : Submission) : FormDict :=
  [("question1", s.question1), ("answer1", s.answer1),
   ("question2", s.question2), ("answer2", s.answer2),
   ("question3", s.question3), ("answer3", s.answer3)]

/-- The whitespace characters removed by Python `str.strip()` (ASCII range;
the submission fields of interest contain no exotic unicode whitespace). -/
def isSpaceChar (c : Char) : Bool :=
  c == ' ' || c == '\t' || c == '\n' || c == '\r' || c == '\x0b' || c == '\x0c'

/-- Python `str.strip()`: drop leading and trailing whitespace. (Defined
structurally on the character list so that concrete instances compute.) -/
def pyStrip (s : String) : String :=
  ⟨((s.data.dropWhile isSpaceChar).reverse.dropWhile isSpaceChar).reverse⟩

/-- `QuestionForm.validate_fields` from main.py: reject when the value is
falsy or strips to length 0, reject when the stripped length is below 2,
otherwise return the stripped value. (An empty string is falsy and also
strips to length 0, so the first guard is exactly "trimmed length is 0".) -/
def validate_fields (v : String) : Except String String :=
  if (pyStrip v).length = 0 then Except.error "Поле обязательно для заполнения"
  else if (pyStrip v).length < 2 then Except.error "Минимум 2 символа"
  else Except.ok (pyStrip v)

/-- Running the validator on one (possibly missing) field of the request
body: pydantic reports a missing required field before the custom validator
runs; errors are tagged with the field they concern. -/
def validateField (n : FieldId) (v? : Option String) : Except (FieldId × String) String :=
  match v? with
  | none => Except.error (n, "Field required")
  | some v => (validate_fields v).mapError (fun m => (n, m))

/-- Whole-model validation of `QuestionForm`: each field must be present and
pass `validate_fields`; fields are processed in declaration order and the
first failure is reported. -/
def validate_form (raw : RawForm) : Except (FieldId × String) Submission :=
  match validateField FieldId.question1 raw.question1 with
  | Except.error e => Except.error e
  | Except.ok q1 =>
    match validateField FieldId.answer1 raw.answer1 with
    | Except.error e => Except.error e
    | Except.ok a1 =>
      match validateField FieldId.question2 raw.question2 with
      | Except.error e => Except.error e
      | Except.ok q2 =>
        match validateField FieldId.answer2 raw.answer2 with
        | Except.error e => Except.error e
        | Except.ok a2 =>
          match validateField FieldId.question3 raw.question3 with
          | Except.error e => Except.error e
          | Except.ok q3 =>
            match validateField FieldId.answer3 raw.answer3 with
            | Except.error e => Except.error e
            | Except.ok a3 => Except.ok ⟨q1, a1, q2, a2, q3, a3⟩

/-- The failure condition of `validateField`, as a boolean: the field is
missing, or its trimmed length is below 2 (which subsumes empty and
whitespace-only values). -/
def fieldInvalidB (v? : Option String) : Bool :=
  match v? with
  | none => true
  | some v => decide ((pyStrip v).length < 2)

/-- Outcomes of the external interactions in `send_form_data`, fixed by the
environment: whether the aiogram `Bot` constructor accepts the token, whether
`bot.send_message` succeeds, whether the xlsx serialization in
`create_excel_file` succeeds, and whether `bot.send_document` succeeds. -/
structure ChannelEnv where
  sessionAcquireOk : Bool
  sendMessageOk : Bool
  excelBuildOk : Bool
  sendDocumentOk : Bool
deriving DecidableEq, Repr

/-- The `{"message_sent": ..., "excel_sent": ...}` result dict of
`send_form_data`. -/
structure DeliveryOutcome where
  message_sent : Bool
  excel_sent : Bool
deriving DecidableEq, Repr

/-- Observable actions of the relay pipeline, in the order performed. -/
inductive Event where
  | sendText (text : String)
  | buildExcel
  | sendFile (rows : List ExcelRow)
  | closeSession
deriving DecidableEq, Repr

/-- Whether an event is an outbound delivery call on the channel. -/
def Event.isOutbound : Event → Bool
  | Event.sendText _ => true
  | Event.sendFile _ => true
  | _ => false

/-- `send_form_data` from telegram_bot.py. If the `Bot` constructor rejects
the token, the exception propagates to the caller (the try/finally has not
been entered yet). Otherwise: `send_message` is called (it catches its own
errors and returns a boolean); `create_excel_file` is attempted inside a
local try, so a serialization failure only leaves `excel_sent` false and
skips `send_document`; the finally block closes the session on every path. -/
def send_form_data (now : String) (env : ChannelEnv) (d : FormDict) :
    Except String DeliveryOutcome × List Event :=
  if env.sessionAcquireOk then
    if env.excelBuildOk then
      (Except.ok ⟨env.sendMessageOk, env.sendDocumentOk⟩,
       [Event.sendText (format_message now d), Event.buildExcel,
        Event.sendFile (excel_rows now d), Event.closeSession])
    else
      (Except.ok ⟨env.sendMessageOk, false⟩,
       [Event.sendText (format_message now d), Event.buildExcel, Event.closeSession])
  else
    (Except.error "Token is invalid!", [])

/-- The two process-wide settings read from the environment at startup;
`none` models an unset variable. -/
structure TelegramConfig where
  botToken : Option String
  chatId : Option String
deriving DecidableEq, Repr

/-- Python truthiness of a configuration value: set and non-empty. -/
def configuredBool (o : Option String) : Bool :=
  match o with
  | some s => !(s == "")
  | none => false

/-- The response of `POST /submit-questions`: `success` is the 200 body
`{status: "success", telegram_status, data}`; `badRequest` is the 400
client-error path with its detail string. -/
inductive HttpResponse where
  | success (telegram : DeliveryOutcome) (data : Submission)
  | badRequest (detail : String)
deriving DecidableEq, Repr

/-- The HTTP status code of a response. -/
def HttpResponse.code : HttpResponse → Nat
  | HttpResponse.success _ _ => 200
  | HttpResponse.badRequest _ => 400

/-- The `submit-questions` endpoint of main.py, composed with request-body
validation: a validation failure is rejected with a client error naming the
offending field and reaches none of the handler's delivery code; otherwise
the handler consults the two configuration values, calls `send_form_data`
when both are truthy (a raised error from it is caught by the handler's
`except` and surfaced as a 400 with the exception text), and echoes
`form_data.model_dump()` as `data` in the 200 body. -/
def submit_questions (cfg : TelegramConfig) (now : String) (raw : RawForm)
    (env : ChannelEnv) : HttpResponse × List Event :=
  match validate_form raw with
  | Except.error e =>
    (HttpResponse.badRequest ("validation error at " ++ toString (repr e.1) ++ ": " ++ e.2),
     [])
  | Except.ok s =>
    if configuredBool cfg.botToken && configuredBool cfg.chatId then
      match send_form_data now env s.toDict with
      | (Except.ok outcome, tr) => (HttpResponse.success outcome s, tr)
      | (Except.error m, tr) => (HttpResponse.badRequest m, tr)
    else
      (HttpResponse.success ⟨false, false⟩ s, [])

/-! ### Helper lemmas about the validator -/

theorem validate_fields_valid (v : String) (h : 2 ≤ (pyStrip v).length) :
    validate_fields v = Except.ok (pyStrip v) := by
  unfold validate_fields
  rw [if_neg (by omega), if_neg (by omega)]

theorem validateField_valid (n : FieldId) (v : String) (h : 2 ≤ (pyStrip v).length) :
    validateField n (some v) = Except.ok (pyStrip v) := by
  simp only [validateField, validate_fields_valid v h, Except.mapError]

theorem validateField_ok_inv (n : FieldId) (v? : Option String) (w : String)
    (h : validateField n v? = Except.ok w) :
    fieldInvalidB v? = false ∧ v?.map pyStrip = some w := by
  cases v? with
  | none => simp [validateField] at h
  | some v =>
    simp only [validateField] at h
    unfold validate_fields at h
    split at h
    · simp [Except.mapError] at h
    · split at h
      · simp [Except.mapError] at h
      · simp only [Except.mapError, Except.ok.injEq] at h
        refine ⟨?_, by simp [h]⟩
        simp only [fieldInvalidB, decide_eq_false_iff_not]
        omega

theorem validateField_error_inv (n : FieldId) (v? : Option String) (j : FieldId)
    (m : String) (h : validateField n v? = Except.error (j, m)) :
    j = n ∧ fieldInvalidB v? = true := by
  cases v? with
  | none =>
    simp only [validateField, Except.error.injEq, Prod.mk.injEq] at h
    exact ⟨h.1.symm, rfl⟩
  | some v =>
    simp only [validateField] at h
    unfold validate_fields at h
    split at h
    · next h0 =>
      simp only [Except.mapError, Except.error.injEq, Prod.mk.injEq] at h
      refine ⟨h.1.symm, ?_⟩
      simp only [fieldInvalidB, decide_eq_true_eq]
      omega
    · split at h
      · next h0 h1 =>
        simp only [Except.mapError, Except.error.injEq, Prod.mk.injEq] at h
        refine ⟨h.1.symm, ?_⟩
        simp only [fieldInvalidB, decide_eq_true_eq]
        omega
      · simp [Except.mapError] at h

theorem validate_form_ok_inv (raw : RawForm) (s : Submission)
    (h : validate_form raw = Except.ok s) :
    ∀ f : FieldId, fieldInvalidB (raw.get f) = false ∧
      (raw.get f).map pyStrip = some (s.get f) := by
  unfold validate_form at h
  cases h1 : validateField FieldId.question1 raw.question1 with
  | error e => rw [h1] at h; simp at h
  | ok w1 =>
  rw [h1] at h
  cases h2 : validateField FieldId.answer1 raw.answer1 with
  | error e => rw [h2] at h; simp at h
  | ok w2 =>
  rw [h2] at h
  cases h3 : validateField FieldId.question2 raw.question2 with
  | error e => rw [h3] at h; simp at h
  | ok w3 =>
  rw [h3] at h
  cases h4 : validateField FieldId.answer2 raw.answer2 with
  | error e => rw [h4] at h; simp at h
  | ok w4 =>
  rw [h4] at h
  cases h5 : validateField FieldId.question3 raw.question3 with
  | error e => rw [h5] at h; simp at h
  | ok w5 =>
  rw [h5] at h
  cases h6 : validateField FieldId.answer3 raw.answer3 with
  | error e => rw [h6] at h; simp at h
  | ok w6 =>
  rw [h6] at h
  simp only [Except.ok.injEq] at h
  subst h
  intro f
  cases f with
  | question1 => exact validateField_ok_inv _ _ _ h1
  | answer1 => exact validateField_ok_inv _ _ _ h2
  | question2 => exact validateField_ok_inv _ _ _ h3
  | answer2 => exact validateField_ok_inv _ _ _ h4
  | question3 => exact validateField_ok_inv _ _ _ h5
  | answer3 => exact validateField_ok_inv _ _ _ h6

theorem validate_form_ok (raw : RawForm)
    (h : ∀ f : FieldId, ∃ v, raw.get f = some v ∧ 2 ≤ (pyStrip v).length) :
    ∃ s, validate_form raw = Except.ok s ∧
      ∀ f : FieldId, (raw.get f).map pyStrip = some (s.get f) := by
  obtain ⟨v1, hv1, hl1⟩ := h FieldId.question1
  obtain ⟨v2, hv2, hl2⟩ := h FieldId.answer1
  obtain ⟨v3, hv3, hl3⟩ := h FieldId.question2
  obtain ⟨v4, hv4, hl4⟩ := h FieldId.answer2
  obtain ⟨v5, hv5, hl5⟩ := h FieldId.question3
  obtain ⟨v6, hv6, hl6⟩ := h FieldId.answer3
  simp only [RawForm.get] at hv1 hv2 hv3 hv4 hv5 hv6
  refine ⟨⟨pyStrip v1, pyStrip v2, pyStrip v3, pyStrip v4, pyStrip v5, pyStrip v6⟩, ?_, ?_⟩
  · simp only [validate_form, hv1, hv2, hv3, hv4, hv5, hv6,
      validateField_valid FieldId.question1 v1 hl1,
      validateField_valid FieldId.answer1 v2 hl2,
      validateField_valid FieldId.question2 v3 hl3,
      validateField_valid FieldId.answer2 v4 hl4,
      validateField_valid FieldId.question3 v5 hl5,
      validateField_valid FieldId.answer3 v6 hl6]
  · intro f
    cases f <;>
      simp [RawForm.get, Submission.get, hv1, hv2, hv3, hv4, hv5, hv6]

theorem validate_form_isError (raw : RawForm) (i : FieldId)
    (h : fieldInvalidB (raw.get i) = true) :
    ∃ j m, validate_form raw = Except.error (j, m) := by
  cases hv : validate_form raw with
  | error e => exact ⟨e.1, e.2, rfl⟩
  | ok s =>
    exfalso
    have := (validate_form_ok_inv raw s hv i).1
    rw [h] at this
    cases this

theorem validate_form_error_inv (raw : RawForm) (j : FieldId) (m : String)
    (h : validate_form raw = Except.error (j, m)) :
    fieldInvalidB (raw.get j) = true := by
  unfold validate_form at h
  cases h1 : validateField FieldId.question1 raw.question1 with
  | error e =>
    rw [h1] at h
    simp only [Except.error.injEq] at h
    subst h
    obtain ⟨hj, hb⟩ := validateField_error_inv _ _ _ _ h1
    subst hj
    exact hb
  | ok w1 =>
  rw [h1] at h
  cases h2 : validateField FieldId.answer1 raw.answer1 with
  | error e =>
    rw [h2] at h
    simp only [Except.error.injEq] at h
    subst h
    obtain ⟨hj, hb⟩ := validateField_error_inv _ _ _ _ h2
    subst hj
    exact hb
  | ok w2 =>
  rw [h2] at h
  cases h3 : validateField FieldId.question2 raw.question2 with
  | error e =>
    rw [h3] at h
    simp only [Except.error.injEq] at h
    subst h
    obtain ⟨hj, hb⟩ := validateField_error_inv _ _ _ _ h3
    subst hj
    exact hb
  | ok w3 =>
  rw [h3] at h
  cases h4 : validateField FieldId.answer2 raw.answer2 with
  | error e =>
    rw [h4] at h
    simp only [Except.error.injEq] at h
    subst h
    obtain ⟨hj, hb⟩ := validateField_error_inv _ _ _ _ h4
    subst hj
    exact hb
  | ok w4 =>
  rw [h4] at h
  cases h5 : validateField FieldId.question3 raw.question3 with
  | error e =>
    rw [h5] at h
    simp only [Except.error.injEq] at h
    subst h
    obtain ⟨hj, hb⟩ := validateField_error_inv _ _ _ _ h5
    subst hj
    exact hb
  | ok w5 =>
  rw [h5] at h
  cases h6 : validateField FieldId.answer3 raw.answer3 with
  | error e =>
    rw [h6] at h
    simp only [Except.error.injEq] at h
    subst h
    obtain ⟨hj, hb⟩ := validateField_error_inv _ _ _ _ h6
    subst hj
    exact hb
  | ok w6 =>
    rw [h6] at h
    simp at h

/-- Inversion for the endpoint: a 200 "success" response can only arise from
a submission the validator accepted, and the echoed `data` is exactly the
validator's output. -/
theorem submit_questions_success_inv (cfg : TelegramConfig) (now : String)
    (raw : RawForm) (env : ChannelEnv) (t : DeliveryOutcome) (s : Submission)
    (h : (submit_questions cfg now raw env).1 = HttpResponse.success t s) :
    validate_form raw = Except.ok s := by
  unfold submit_questions at h
  cases hv : validate_form raw with
  | error e => rw [hv] at h; simp at h
  | ok s0 =>
    rw [hv] at h
    simp only at h
    split at h
    · split at h
      · next outcome tr heq =>
        simp only [HttpResponse.success.injEq] at h
        rw [h.2]
      · next m tr heq => simp at h
    · simp only [HttpResponse.success.injEq] at h
      rw [h.2]

/-- C1: a submission in which any one of the six fields is missing, empty
after trimming, or of trimmed length 1 (including whitespace-only values) is
rejected by the validator with an error identifying an offending field, the
endpoint answers with status code 400, and no event — in particular no
send-text and no send-file call — is performed. -/
theorem invalid_field_rejected_with_400_and_no_delivery
    (cfg : TelegramConfig) (now : String) (raw : RawForm) (env : ChannelEnv)
    (i : FieldId) (h : fieldInvalidB (raw.get i) = true) :
    (∃ j m, validate_form raw = Except.error (j, m) ∧
      fieldInvalidB (raw.get j) = true) ∧
    (submit_questions cfg now raw env).1.code = 400 ∧
    (submit_questions cfg now raw env).2 = [] := by
  obtain ⟨j, m, hjm⟩ := validate_form_isError raw i h
  refine ⟨⟨j, m, hjm, validate_form_error_inv raw j m hjm⟩, ?_, ?_⟩
  · unfold submit_questions
    rw [hjm]
    rfl
  · unfold submit_questions
    rw [hjm]

theorem invalid_field_rejected_witness :
    fieldInvalidB (RawForm.get ⟨some "ab", some "x", some "cd", some "ef",
        some "gh", some "ij"⟩ FieldId.answer1) = true ∧
    ((∃ j m, validate_form ⟨some "ab", some "x", some "cd", some "ef",
        some "gh", some "ij"⟩ = Except.error (j, m) ∧
      fieldInvalidB (RawForm.get ⟨some "ab", some "x", some "cd", some "ef",
        some "gh", some "ij"⟩ j) = true) ∧
    (submit_questions ⟨some "t", some "c"⟩ "12.10.2026 в 10:00"
      ⟨some "ab", some "x", some "cd", some "ef", some "gh", some "ij"⟩
      ⟨true, true, true, true⟩).1.code = 400 ∧
    (submit_questions ⟨some "t", some "c"⟩ "12.10.2026 в 10:00"
      ⟨some "ab", some "x", some "cd", some "ef", some "gh", some "ij"⟩
      ⟨true, true, true, true⟩).2 = []) :=
  ⟨by decide,
   invalid_field_rejected_with_400_and_no_delivery ⟨some "t", some "c"⟩
     "12.10.2026 в 10:00"
     ⟨some "ab", some "x", some "cd", some "ef", some "gh", some "ij"⟩
     ⟨true, true, true, true⟩ FieldId.answer1 (by decide)⟩

/-- C7: a submission in which every field is present with trimmed length at
least 2 is accepted, and the validator returns the record with every field
trimmed. -/
theorem min_length_two_accepted (raw : RawForm)
    (h : ∀ f : FieldId, ∃ v, raw.get f = some v ∧ 2 ≤ (pyStrip v).length) :
    ∃ s, validate_form raw = Except.ok s ∧
      ∀ f : FieldId, (raw.get f).map pyStrip = some (s.get f) :=
  validate_form_ok raw h

theorem min_length_two_accepted_witness :
    (∀ f : FieldId, ∃ v, RawForm.get ⟨some "ab", some " cd ", some "ef",
        some "gh", some "ij", some "kl"⟩ f = some v ∧ 2 ≤ (pyStrip v).length) ∧
    (∃ s, validate_form ⟨some "ab", some " cd ", some "ef", some "gh",
        some "ij", some "kl"⟩ = Except.ok s ∧
      ∀ f : FieldId, (RawForm.get ⟨some "ab", some " cd ", some "ef",
        some "gh", some "ij", some "kl"⟩ f).map pyStrip = some (s.get f)) := by
  have h : ∀ f : FieldId, ∃ v, RawForm.get ⟨some "ab", some " cd ", some "ef",
      some "gh", some "ij", some "kl"⟩ f = some v ∧ 2 ≤ (pyStrip v).length := by
    intro f
    cases f <;> exact ⟨_, rfl, by decide⟩
  exact ⟨h, min_length_two_accepted _ h⟩

/-- C9: whenever the endpoint answers 200 "success", the `data` object it
echoes is the validator's output: every field equals the trimmed value of
the corresponding raw field the client sent. -/
theorem echoed_data_is_trimmed (cfg : TelegramConfig) (now : String)
    (raw : RawForm) (env : ChannelEnv) (t : DeliveryOutcome) (s : Submission)
    (h : (submit_questions cfg now raw env).1 = HttpResponse.success t s) :
    ∀ f : FieldId, (raw.get f).map pyStrip = some (s.get f) :=
  fun f =>
    (validate_form_ok_inv raw s
      (submit_questions_success_inv cfg now raw env t s h) f).2

theorem echoed_data_is_trimmed_witness :
    (submit_questions ⟨none, none⟩ "12.10.2026 в 10:00"
        ⟨some " ab ", some "cd", some "ef", some "gh", some "ij", some "kl"⟩
        ⟨true, true, true, true⟩).1 =
      HttpResponse.success ⟨false, false⟩ ⟨"ab", "cd", "ef", "gh", "ij", "kl"⟩ ∧
    (∀ f : FieldId,
      (RawForm.get ⟨some " ab ", some "cd", some "ef", some "gh", some "ij",
        some "kl"⟩ f).map pyStrip =
      some (Submission.get ⟨"ab", "cd", "ef", "gh", "ij", "kl"⟩ f)) :=
  ⟨by decide,
   echoed_data_is_trimmed ⟨none, none⟩ "12.10.2026 в 10:00"
     ⟨some " ab ", some "cd", some "ef", some "gh", some "ij", some "kl"⟩
     ⟨true, true, true, true⟩ ⟨false, false⟩ ⟨"ab", "cd", "ef", "gh", "ij", "kl"⟩
     (by decide)⟩

/-- C2: for every environment and submission dictionary, once the channel
session is acquired the pipeline returns the `DeliveryOutcome` pair — with
`message_sent` the text-send outcome and `excel_sent` the conjunction of the
build and file-send outcomes — and the spreadsheet step is still attempted
(a `buildExcel` event occurs) even when the text send failed; the pipeline
raises (returns `Except.error`) exactly when the session cannot be
acquired. -/
theorem relay_returns_outcome_pair (now : String) (env : ChannelEnv) (d : FormDict) :
    ((send_form_data now env d).1.isOk = env.sessionAcquireOk) ∧
    (env.sessionAcquireOk = true →
      (send_form_data now env d).1 =
        Except.ok ⟨env.sendMessageOk, env.excelBuildOk && env.sendDocumentOk⟩ ∧
      Event.buildExcel ∈ (send_form_data now env d).2) := by
  cases hA : env.sessionAcquireOk with
  | false => simp [send_form_data, hA, Except.isOk, Except.toBool]
  | true =>
    cases hE : env.excelBuildOk with
    | false => simp [send_form_data, hA, hE, Except.isOk, Except.toBool]
    | true => simp [send_form_data, hA, hE, Except.isOk, Except.toBool]

theorem relay_returns_outcome_pair_witness :
    ((send_form_data "12.10.2026 в 10:00" ⟨true, false, true, true⟩ []).1.isOk = true) ∧
    ((send_form_data "12.10.2026 в 10:00" ⟨true, false, true, true⟩ []).1 =
        Except.ok ⟨false, true⟩ ∧
      Event.buildExcel ∈ (send_form_data "12.10.2026 в 10:00"
        ⟨true, false, true, true⟩ []).2) := by
  have h := relay_returns_outcome_pair "12.10.2026 в 10:00" ⟨true, false, true, true⟩ []
  exact ⟨h.1, h.2 rfl⟩

/-- C3: if the spreadsheet build step throws, the failure is contained: the
returned outcome has `excel_sent = false`, no send-file call is attempted,
and `message_sent` is still exactly the independent text-send outcome. -/
theorem excel_failure_isolated (now : String) (env : ChannelEnv) (d : FormDict)
    (hacq : env.sessionAcquireOk = true) (hex : env.excelBuildOk = false) :
    (send_form_data now env d).1 = Except.ok ⟨env.sendMessageOk, false⟩ ∧
    ∀ rows, Event.sendFile rows ∉ (send_form_data now env d).2 := by
  simp [send_form_data, hacq, hex]

theorem excel_failure_isolated_witness :
    (send_form_data "12.10.2026 в 10:00" ⟨true, true, false, true⟩ []).1 =
      Except.ok ⟨true, false⟩ ∧
    ∀ rows, Event.sendFile rows ∉
      (send_form_data "12.10.2026 в 10:00" ⟨true, true, false, true⟩ []).2 :=
  excel_failure_isolated "12.10.2026 в 10:00" ⟨true, true, false, true⟩ [] rfl rfl

/-- C8: on every exit path entered after the channel session has been
acquired — full success, partial delivery failure, or an exception in the
build/send steps — the session-close action is performed, and it is the last
action before `send_form_data` returns. -/
theorem session_closed_on_every_path (now : String) (env : ChannelEnv) (d : FormDict)
    (h : env.sessionAcquireOk = true) :
    (send_form_data now env d).2.getLast? = some Event.closeSession ∧
    Event.closeSession ∈ (send_form_data now env d).2 := by
  cases hE : env.excelBuildOk with
  | false =>
    have ht : (send_form_data now env d).2 =
        [Event.sendText (format_message now d), Event.buildExcel,
         Event.closeSession] := by
      simp [send_form_data, h, hE]
    rw [ht]
    exact ⟨rfl, by simp⟩
  | true =>
    have ht : (send_form_data now env d).2 =
        [Event.sendText (format_message now d), Event.buildExcel,
         Event.sendFile (excel_rows now d), Event.closeSession] := by
      simp [send_form_data, h, hE]
    rw [ht]
    exact ⟨rfl, by simp⟩

theorem session_closed_witness :
    (send_form_data "12.10.2026 в 10:00" ⟨true, false, false, false⟩ []).2.getLast? =
      some Event.closeSession ∧
    Event.closeSession ∈
      (send_form_data "12.10.2026 в 10:00" ⟨true, false, false, false⟩ []).2 :=
  session_closed_on_every_path "12.10.2026 в 10:00" ⟨true, false, false, false⟩ [] rfl

/-- C4: for a submission the validator accepts, if either the channel
credential or the recipient identifier is not configured, the endpoint
performs no event at all (in particular no outbound call), reports
`telegram_status = {message_sent := false, excel_sent := false}`, and still
answers 200 with the "success" body. -/
theorem unconfigured_channel_skips_delivery (cfg : TelegramConfig) (now : String)
    (raw : RawForm) (env : ChannelEnv) (s : Submission)
    (hv : validate_form raw = Except.ok s)
    (hc : configuredBool cfg.botToken = false ∨ configuredBool cfg.chatId = false) :
    submit_questions cfg now raw env =
      (HttpResponse.success ⟨false, false⟩ s, []) ∧
    (submit_questions cfg now raw env).1.code = 200 := by
  have hcc : (configuredBool cfg.botToken && configuredBool cfg.chatId) = false := by
    rcases hc with h | h <;> simp [h]
  have he : submit_questions cfg now raw env =
      (HttpResponse.success ⟨false, false⟩ s, []) := by
    unfold submit_questions
    rw [hv]
    simp [hcc]
  exact ⟨he, by rw [he]; rfl⟩

theorem unconfigured_channel_skips_delivery_witness :
    validate_form ⟨some "ab", some "cd", some "ef", some "gh", some "ij",
      some "kl"⟩ = Except.ok ⟨"ab", "cd", "ef", "gh", "ij", "kl"⟩ ∧
    (submit_questions ⟨none, some "chat"⟩ "12.10.2026 в 10:00"
        ⟨some "ab", some "cd", some "ef", some "gh", some "ij", some "kl"⟩
        ⟨true, true, true, true⟩ =
      (HttpResponse.success ⟨false, false⟩ ⟨"ab", "cd", "ef", "gh", "ij", "kl"⟩, []) ∧
    (submit_questions ⟨none, some "chat"⟩ "12.10.2026 в 10:00"
        ⟨some "ab", some "cd", some "ef", some "gh", some "ij", some "kl"⟩
        ⟨true, true, true, true⟩).1.code = 200) :=
  ⟨rfl,
   unconfigured_channel_skips_delivery ⟨none, some "chat"⟩ "12.10.2026 в 10:00"
     ⟨some "ab", some "cd", some "ef", some "gh", some "ij", some "kl"⟩
     ⟨true, true, true, true⟩ ⟨"ab", "cd", "ef", "gh", "ij", "kl"⟩ rfl
     (Or.inl rfl)⟩

/-! ### Helper lemmas about the submission dictionary -/

theorem toDict_lookup_question1 (s : Submission) :
    s.toDict.lookup (questionKey 1) = some s.question1 := rfl

theorem toDict_lookup_answer1 (s : Submission) :
    s.toDict.lookup (answerKey 1) = some s.answer1 := rfl

theorem toDict_lookup_question2 (s : Submission) :
    s.toDict.lookup (questionKey 2) = some s.question2 := rfl

theorem toDict_lookup_answer2 (s : Submission) :
    s.toDict.lookup (answerKey 2) = some s.answer2 := rfl

theorem toDict_lookup_question3 (s : Submission) :
    s.toDict.lookup (questionKey 3) = some s.question3 := rfl

theorem toDict_lookup_answer3 (s : Submission) :
    s.toDict.lookup (answerKey 3) = some s.answer3 := rfl

/-- A submission whose six fields are all non-empty passes the truthiness
guard on each of the three pairs. -/
theorem pairPresent_toDict (s : Submission) (h : ∀ f : FieldId, s.get f ≠ "") :
    pairPresent s.toDict 1 = true ∧ pairPresent s.toDict 2 = true ∧
      pairPresent s.toDict 3 = true := by
  have h1 := h FieldId.question1
  have h2 := h FieldId.answer1
  have h3 := h FieldId.question2
  have h4 := h FieldId.answer2
  have h5 := h FieldId.question3
  have h6 := h FieldId.answer3
  simp only [Submission.get] at h1 h2 h3 h4 h5 h6
  refine ⟨?_, ?_, ?_⟩
  · simp only [pairPresent, truthyGet, toDict_lookup_question1, toDict_lookup_answer1]
    simp [h1, h2]
  · simp only [pairPresent, truthyGet, toDict_lookup_question2, toDict_lookup_answer2]
    simp [h3, h4]
  · simp only [pairPresent, truthyGet, toDict_lookup_question3, toDict_lookup_answer3]
    simp [h5, h6]

/-- C6: for a validated submission (all six fields non-empty, as guaranteed
by the validator), the formatted message is exactly the timestamp header
followed by the three question/answer blocks in order 1, 2, 3, each block
being the question label, the question text, the answer label, the answer
text, and the separator line. Since `format_message` is a pure function of
the submission dictionary and the formatted current time, the output is
determined entirely by those two inputs. -/
theorem message_has_three_blocks (now : String) (s : Submission)
    (h : ∀ f : FieldId, s.get f ≠ "") :
    format_message now s.toDict =
      "📝 <b>Новая форма с вопросами</b>\n" ++ ("🕐 Отправлено: " ++ now ++ "\n\n") ++
        pairBlock s.toDict 1 ++ pairBlock s.toDict 2 ++ pairBlock s.toDict 3 ∧
    pairBlock s.toDict 1 =
      "❓ <b>Вопрос " ++ toString 1 ++ ":</b>\n" ++ s.question1 ++ "\n\n" ++
      "✅ <b>Ответ " ++ toString 1 ++ ":</b>\n" ++ s.answer1 ++ "\n\n" ++
      "─────────────────\n\n" ∧
    pairBlock s.toDict 2 =
      "❓ <b>Вопрос " ++ toString 2 ++ ":</b>\n" ++ s.question2 ++ "\n\n" ++
      "✅ <b>Ответ " ++ toString 2 ++ ":</b>\n" ++ s.answer2 ++ "\n\n" ++
      "─────────────────\n\n" ∧
    pairBlock s.toDict 3 =
      "❓ <b>Вопрос " ++ toString 3 ++ ":</b>\n" ++ s.question3 ++ "\n\n" ++
      "✅ <b>Ответ " ++ toString 3 ++ ":</b>\n" ++ s.answer3 ++ "\n\n" ++
      "─────────────────\n\n" := by
  obtain ⟨hp1, hp2, hp3⟩ := pairPresent_toDict s h
  refine ⟨?_, rfl, rfl, rfl⟩
  simp [format_message, hp1, hp2, hp3]

theorem message_has_three_blocks_witness :
    (∀ f : FieldId, Submission.get ⟨"Q1", "A1", "Q2", "A2", "Q3", "A3"⟩ f ≠ "") ∧
    format_message "12.10.2026 в 10:00"
        (Submission.toDict ⟨"Q1", "A1", "Q2", "A2", "Q3", "A3"⟩) =
      "📝 <b>Новая форма с вопросами</b>\n" ++
        ("🕐 Отправлено: " ++ "12.10.2026 в 10:00" ++ "\n\n") ++
        pairBlock (Submission.toDict ⟨"Q1", "A1", "Q2", "A2", "Q3", "A3"⟩) 1 ++
        pairBlock (Submission.toDict ⟨"Q1", "A1", "Q2", "A2", "Q3", "A3"⟩) 2 ++
        pairBlock (Submission.toDict ⟨"Q1", "A1", "Q2", "A2", "Q3", "A3"⟩) 3 := by
  have h : ∀ f : FieldId, Submission.get ⟨"Q1", "A1", "Q2", "A2", "Q3", "A3"⟩ f ≠ "" := by
    intro f
    cases f <;> decide
  exact ⟨h, (message_has_three_blocks "12.10.2026 в 10:00"
    ⟨"Q1", "A1", "Q2", "A2", "Q3", "A3"⟩ h).1⟩

/-- C5: one spreadsheet row is built per question/answer pair whose two
values are both non-empty (row indices are exactly the indices passing the
guard, in order); for a validated submission the table is the header row —
columns in order index, question, answer, timestamp — followed by exactly
three rows carrying the per-row timestamp; and every column width computed
by the auto-size loop, the trailing timestamp column included, is capped at
50. -/
theorem excel_one_row_per_pair (now : String) (d : FormDict) (s : Submission)
    (h : ∀ f : FieldId, s.get f ≠ "") :
    (excel_rows now d).map (fun r => r.num) =
      [1, 2, 3].filter (fun i => pairPresent d i) ∧
    create_excel_file now s.toDict =
      [excelHeader,
       [toString 1, s.question1, s.answer1, now],
       [toString 2, s.question2, s.answer2, now],
       [toString 3, s.question3, s.answer3, now]] ∧
    (create_excel_file now s.toDict).head? = some excelHeader ∧
    (∀ j, adjusted_width (tableColumn (create_excel_file now s.toDict) j) ≤ 50) := by
  obtain ⟨hp1, hp2, hp3⟩ := pairPresent_toDict s h
  refine ⟨?_, ?_, ?_, ?_⟩
  · cases h1 : pairPresent d 1 <;> cases h2 : pairPresent d 2 <;>
      cases h3 : pairPresent d 3 <;> simp [excel_rows, h1, h2, h3]
  · simp [create_excel_file, excel_rows, hp1, hp2, hp3,
      toDict_lookup_question1, toDict_lookup_answer1, toDict_lookup_question2,
      toDict_lookup_answer2, toDict_lookup_question3, toDict_lookup_answer3]
  · simp [create_excel_file]
  · intro j
    exact Nat.min_le_right _ _

theorem excel_one_row_per_pair_witness :
    (∀ f : FieldId, Submission.get ⟨"Q1", "A1", "Q2", "A2", "Q3", "A3"⟩ f ≠ "") ∧
    (excel_rows "12.10.2026 в 10:00" []).map (fun r => r.num) =
      [1, 2, 3].filter (fun i => pairPresent [] i) ∧
    create_excel_file "12.10.2026 в 10:00"
        (Submission.toDict ⟨"Q1", "A1", "Q2", "A2", "Q3", "A3"⟩) =
      [excelHeader,
       [toString 1, "Q1", "A1", "12.10.2026 в 10:00"],
       [toString 2, "Q2", "A2", "12.10.2026 в 10:00"],
       [toString 3, "Q3", "A3", "12.10.2026 в 10:00"]] ∧
    (∀ j, adjusted_width (tableColumn (create_excel_file "12.10.2026 в 10:00"
      (Submission.toDict ⟨"Q1", "A1", "Q2", "A2", "Q3", "A3"⟩)) j) ≤ 50) := by
  have h : ∀ f : FieldId, Submission.get ⟨"Q1", "A1", "Q2", "A2", "Q3", "A3"⟩ f ≠ "" := by
    intro f
    cases f <;> decide
  have hm := excel_one_row_per_pair "12.10.2026 в 10:00" []
    ⟨"Q1", "A1", "Q2", "A2", "Q3", "A3"⟩ h
  exact ⟨h, hm.1, hm.2.1, hm.2.2.2⟩

/-- C10: `format_message` and the row construction of `create_excel_file`
are total over arbitrary dictionaries — they are plain functions defined on
every `FormDict`, with no error outcome in their type — and a pair whose
question or answer entry is absent or empty is silently dropped: the message
is the header followed by the blocks of exactly the pairs passing the guard,
the row list is exactly the rows of those pairs, and there are never more
than three of them (so fewer than three when any pair is dropped). -/
theorem formatter_total_on_raw_dicts (now : String) (d : FormDict) :
    format_message now d =
      ([1, 2, 3].filter (fun i => pairPresent d i)).foldl
        (fun m i => m ++ pairBlock d i)
        ("📝 <b>Новая форма с вопросами</b>\n" ++ ("🕐 Отправлено: " ++ now ++ "\n\n")) ∧
    excel_rows now d =
      ([1, 2, 3].filter (fun i => pairPresent d i)).map
        (fun i => ⟨i, (d.lookup (questionKey i)).getD "",
                   (d.lookup (answerKey i)).getD "", now⟩) ∧
    (excel_rows now d).length = ([1, 2, 3].filter (fun i => pairPresent d i)).length ∧
    (excel_rows now d).length ≤ 3 := by
  cases h1 : pairPresent d 1 <;> cases h2 : pairPresent d 2 <;>
    cases h3 : pairPresent d 3 <;>
    simp [format_message, excel_rows, pairBlock, h1, h2, h3]
